import Mathlib

/-!
Shallow embedding of the coverage / simulation state machine of
src/js/address-search.js (Base Station Simulator Control section):
the station store, the coverage-ring engine, the asynchronous station
tour loop, the coverage button state machine and the station loader.

Timers are modelled by integer handles, the ring overlay layer by a list
of drawn circles, and the asynchronous tour coroutine by an explicit
suspension-point state; the browser event loop is modelled as a sequence
of events (button clicks, coroutine resumptions) applied to the module
state. Numeric coordinates are embedded as integers; only their ordering
matters to the logic under verification.
-/

/-- A base station as stored in the module-level `stations` array:
latitude and longitude. -/
structure Station where
  lat : Int
  lon : Int
deriving Repr, DecidableEq

/-- One circle drawn on the ring overlay layer (`ringLayerGroup`):
its center coordinates and its radius in meters. -/
structure RingShape where
  center : Int × Int
  radiusM : Nat
deriving Repr, DecidableEq

/-- Source constant `coverageSteps = [0, 5, 10, 15, 20, 25, 30, 40]`:
the ring radius in km for each coverage state. -/
def coverageSteps : List Nat := [0, 5, 10, 15, 20, 25, 30, 40]

/-- Source constant `ZOOM_BASE = 15`. -/
def ZOOM_BASE : Nat := 15

/-- Source constant `ZOOM_CLOSE = 11`. -/
def ZOOM_CLOSE : Nat := 11

/-- Source constant `FLY_DUR_BASE = 20` seconds. -/
def FLY_DUR_BASE : Nat := 20

/-- Source constant `FLY_DUR_CLOSE = 25` seconds. -/
def FLY_DUR_CLOSE : Nat := 25

/-- Source initializer `let coverageState = 7; // default to 40km on load`:
the in-memory value the state variable holds from script start. -/
def initialCoverageState : Nat := 7

/-- Source function `clearCoverage()`: `ringLayerGroup.clearLayers()` removes
every drawn ring from the overlay layer. -/
def clearCoverage (_layer : List RingShape) : List RingShape := []

/-- Source function `drawSingleRing(km)`: first clears the layer, then returns
early if the station store is empty, otherwise adds one circle of radius
`km * 1000` meters centered at every station. -/
def drawSingleRing (stations : List Station) (km : Nat) (layer : List RingShape) : List RingShape :=
  let cleared := clearCoverage layer
  if stations.isEmpty then cleared
  else cleared ++ stations.map (fun site => { center := (site.lat, site.lon), radiusM := km * 1000 })

/-- The sort comparator `(a, b) => b.lat - a.lat` used by
`rebuildStationOrder`: `a` is placed before `b` exactly when
`b.lat ≤ a.lat` (descending latitude). -/
def latDescending (a b : Nat × Int) : Bool := decide (b.2 ≤ a.2)

/-- The intermediate array `stations.map((s, i) => ({ i, lat: s.lat }))`
built by `rebuildStationOrder`. -/
def stationPairs (stations : List Station) : List (Nat × Int) :=
  stations.enum.map (fun p => (p.1, p.2.lat))

/-- Source function `rebuildStationOrder()`: station indices sorted by
descending latitude (north to south). `Array.prototype.sort` is stable and is
modelled by a stable merge sort with the comparator from the source. -/
def rebuildStationOrder (stations : List Station) : List Nat :=
  ((stationPairs stations).mergeSort latDescending).map Prod.fst

/-- Latitude of the station at index `i` (0 for an out-of-range index). -/
def latAt (stations : List Station) (i : Nat) : Int :=
  (stations.map Station.lat).getD i 0

/-- One tick of the `setInterval` callback installed by `startRingCycle`
advances the captured index: `idx++; if (idx >= coverageSteps.length) idx = 1`. -/
def ringCycleNext (idx : Nat) : Nat :=
  if idx + 1 ≥ coverageSteps.length then 1 else idx + 1

/-- The captured index of the ring-cycle callback as seen by the n-th timer
tick; the closure initializes it with `let idx = 1`, i.e. 5 km. -/
def ringIdxAt : Nat → Nat
  | 0 => 1
  | n + 1 => ringCycleNext (ringIdxAt n)

/-- The radius in kilometers drawn by the n-th tick of the ring cycle:
each tick draws `coverageSteps[idx]` and then advances the index. -/
def ringRadiusAt (n : Nat) : Nat := coverageSteps.getD (ringIdxAt n) 0

/-- One `map.flyTo` call issued to the map engine by the tour loop. -/
structure FlyCall where
  target : Int × Int
  zoom : Nat
  durationSec : Nat
deriving Repr, DecidableEq

/-- The suspension points of the `zoomStationsLoop` coroutine, i.e. its
`await` expressions: the empty-store retry sleep, the three fly animations
and the two pauses. -/
inductive Susp where
  | sleepRetry
  | flyBaseIn
  | flyClose
  | pauseClose
  | flyBaseOut
  | pauseBetween
deriving Repr, DecidableEq

/-- One suspended instance of the `zoomStationsLoop` coroutine: where it is
suspended, its local iteration counter `idx`, and the `target` coordinates
computed at the head of the current iteration. -/
structure LoopState where
  susp : Susp
  idx : Nat
  target : Int × Int
deriving Repr, DecidableEq

/-- The per-iteration target of the tour: `stationOrder[idx % stationOrder.length]`
selects the station index, and the target is `[s.lat, s.lon]`. -/
def targetOf (stations : List Station) (order : List Nat) (idx : Nat) : Int × Int :=
  let sIndex := order.getD (idx % order.length) 0
  let s := stations.getD sIndex { lat := 0, lon := 0 }
  (s.lat, s.lon)

/-- Run the loop from its `while (simRunning)` head up to the next suspension
point. Returns the suspended continuation (`none` when the loop exited) and
the `flyTo` calls issued on the way. If the flag is down the loop exits; if
the store or the order is empty it suspends on the 1000 ms retry sleep;
otherwise it issues the first fly (base zoom) and suspends on it. -/
def loopHead (running : Bool) (stations : List Station) (order : List Nat) (idx : Nat) :
    Option LoopState × List FlyCall :=
  if running then
    if stations.isEmpty || order.isEmpty then
      (some { susp := .sleepRetry, idx := idx, target := (0, 0) }, [])
    else
      let t := targetOf stations order idx
      (some { susp := .flyBaseIn, idx := idx, target := t },
        [{ target := t, zoom := ZOOM_BASE, durationSec := FLY_DUR_BASE }])
  else (none, [])

/-- Resume a suspended loop when its awaited promise or timer resolves. The
current value of the shared `simRunning` flag is re-checked
(`if (!simRunning) break`) before the next choreography step is started;
after the between-stations pause the counter is incremented and control
returns to the loop head, whose `while` condition is the check. -/
def resumeLoop (running : Bool) (stations : List Station) (order : List Nat)
    (l : LoopState) : Option LoopState × List FlyCall :=
  match l.susp with
  | .sleepRetry => loopHead running stations order l.idx
  | .flyBaseIn =>
      if running then
        (some { l with susp := .flyClose },
          [{ target := l.target, zoom := ZOOM_CLOSE, durationSec := FLY_DUR_CLOSE }])
      else (none, [])
  | .flyClose =>
      if running then (some { l with susp := .pauseClose }, []) else (none, [])
  | .pauseClose =>
      if running then
        (some { l with susp := .flyBaseOut },
          [{ target := l.target, zoom := ZOOM_BASE, durationSec := FLY_DUR_BASE }])
      else (none, [])
  | .flyBaseOut =>
      if running then (some { l with susp := .pauseBetween }, []) else (none, [])
  | .pauseBetween => loopHead running stations order (l.idx + 1)

/-- A call of `zoomStationsLoop()`: rebuild the global order if it is empty,
initialize the local counter `idx = 0`, and run synchronously to the first
suspension point. Returns the possibly rebuilt global station order, the
suspended loop if it did not exit at once, and the `flyTo` calls issued. -/
def loopStart (running : Bool) (stations : List Station) (order : List Nat) :
    List Nat × Option LoopState × List FlyCall :=
  let order9 := if order.isEmpty then rebuildStationOrder stations else order
  (order9, loopHead running stations order9 0)

/-- The module-level mutable state of the script: the coverage state variable,
the button visual state, the `simRunning` flag, the `ringInterval` handle
together with the list of actually live interval timers and a fresh-handle
counter, the ring overlay layer, the station store, the global station order,
and the suspended tour-loop coroutines currently alive. -/
structure Sys where
  coverageState : Nat
  btnState : Nat
  simRunning : Bool
  ringInterval : Option Nat
  activeTimers : List Nat
  nextTimer : Nat
  ringLayer : List RingShape
  stations : List Station
  stationOrder : List Nat
  loops : List LoopState
deriving Repr, DecidableEq

/-- Timer-accounting invariant: the stored `ringInterval` handle accounts for
exactly the live interval timers. -/
def timerInv (s : Sys) : Prop := s.activeTimers = s.ringInterval.toList

/-- Source function `startRingCycle()`: `clearCoverage()`, then
`if (ringInterval) clearInterval(ringInterval)`, then installation of a fresh
interval timer whose handle is stored in `ringInterval`. -/
def startRingCycle (s : Sys) : Sys :=
  let s1 := { s with ringLayer := clearCoverage s.ringLayer }
  let s2 :=
    match s1.ringInterval with
    | some t => { s1 with activeTimers := s1.activeTimers.erase t }
    | none => s1
  { s2 with
    ringInterval := some s2.nextTimer
    activeTimers := s2.activeTimers ++ [s2.nextTimer]
    nextTimer := s2.nextTimer + 1 }

/-- Source function `stopRingCycle()`: `if (ringInterval)
clearInterval(ringInterval); ringInterval = null`. The ring layer is not
touched. -/
def stopRingCycle (s : Sys) : Sys :=
  let s1 :=
    match s.ringInterval with
    | some t => { s with activeTimers := s.activeTimers.erase t }
    | none => s
  { s1 with ringInterval := none }

/-- Source function `stopSimulation()`: lower `simRunning`, then
`stopRingCycle()`. The suspended tour coroutines themselves are untouched;
they observe the flag only when they next resume. -/
def stopSimulation (s : Sys) : Sys :=
  stopRingCycle { s with simRunning := false }

/-- Source function `startSimulation()`: returns early if `simRunning` is
already set; otherwise raises the flag, starts the ring cycle, and calls
`zoomStationsLoop()`, which runs to its first suspension point and, if it did
not exit at once, becomes a live suspended coroutine. -/
def startSimulation (s : Sys) : Sys :=
  if s.simRunning then s
  else
    let s1 := startRingCycle { s with simRunning := true }
    let r := loopStart s1.simRunning s1.stations s1.stationOrder
    { s1 with stationOrder := r.1, loops := s1.loops ++ r.2.1.toList }

/-- The state increment of the `coverageBtn` click handler:
`coverageState++; if (coverageState > 8) coverageState = 0`. -/
def nextCoverageState (s : Nat) : Nat := if s + 1 > 8 then 0 else s + 1

/-- The `coverageBtn` click handler: advance the state, update the button
visuals, unconditionally `stopSimulation()`, then dispatch on the new state:
0 clears the rings, 1 to 7 draw the single fixed ring, 8 starts the
simulation. -/
def clickSys (s : Sys) : Sys :=
  let cs := nextCoverageState s.coverageState
  let s1 := stopSimulation { s with coverageState := cs, btnState := cs }
  if cs = 0 then { s1 with ringLayer := clearCoverage s1.ringLayer }
  else if 1 ≤ cs ∧ cs ≤ 7 then
    { s1 with ringLayer := drawSingleRing s1.stations (coverageSteps.getD cs 0) s1.ringLayer }
  else if cs = 8 then startSimulation s1
  else s1

/-- A parsed CSV row: the latitude / longitude columns may be missing or
non-numeric (`none`); the display metadata columns are irrelevant to the
core logic. -/
structure Row where
  latField : Option Int
  lonField : Option Int
deriving Repr, DecidableEq

/-- The row filter of the load callback: rows whose latitude or longitude
column is not a number are silently skipped, the rest become stations. -/
def parseStations (rows : List Row) : List Station :=
  rows.filterMap (fun r =>
    match r.latField, r.lonField with
    | some la, some lo => some { lat := la, lon := lo }
    | _, _ => none)

/-- The `Papa.parse` completion callback of `loadStations()`: pushes the valid
rows onto `stations`, rebuilds the north-to-south order, sets the button
visuals to state 7 and draws the 40 km rings via
`drawSingleRing(coverageSteps[7])`. It never assigns the `coverageState`
variable itself. -/
def loadComplete (rows : List Row) (s : Sys) : Sys :=
  let sts := s.stations ++ parseStations rows
  { s with
    stations := sts
    stationOrder := rebuildStationOrder sts
    btnState := 7
    ringLayer := drawSingleRing sts (coverageSteps.getD 7 0) s.ringLayer }

/-- An event-loop event: a button activation, or the resumption of the i-th
currently suspended tour-loop coroutine when its awaited promise resolves. -/
inductive Ev where
  | click
  | resume (i : Nat)
deriving Repr, DecidableEq

/-- Deliver a resumption to the i-th suspended loop: it observes the current
`simRunning` flag and either exits (and is removed from the live list) or
advances to its next suspension point. -/
def resumeSys (i : Nat) (s : Sys) : Sys :=
  match s.loops.get? i with
  | none => s
  | some l =>
      let r := resumeLoop s.simRunning s.stations s.stationOrder l
      match r.1 with
      | none => { s with loops := s.loops.eraseIdx i }
      | some l9 => { s with loops := s.loops.set i l9 }

/-- One step of the event loop. -/
def stepSys (s : Sys) : Ev → Sys
  | .click => clickSys s
  | .resume i => resumeSys i s

/-- Run a sequence of event-loop events. -/
def runEvents (s : Sys) (evs : List Ev) : Sys := evs.foldl stepSys s

/-- The module state right after the stations finished loading with one
station: default coverage state 7, one 40 km ring drawn, order built, no
simulation active. -/
def loadedSys : Sys :=
  { coverageState := initialCoverageState
    btnState := 7
    simRunning := false
    ringInterval := none
    activeTimers := []
    nextTimer := 0
    ringLayer := [{ center := (0, 0), radiusM := 40000 }]
    stations := [{ lat := 0, lon := 0 }]
    stationOrder := [0]
    loops := [] }

/-- The event trace that breaks the single-run invariant: from the post-load
state, ten consecutive button activations reach tour state 8, cycle away
through all other states, and re-enter state 8, all while the first tour loop
is still awaiting its first fly animation. -/
def bugTrace : Sys := runEvents loadedSys (List.replicate 10 Ev.click)

theorem stationPairs_length (stations : List Station) :
    (stationPairs stations).length = stations.length := by
  simp [stationPairs]

theorem stationPairs_getElem (stations : List Station) (i : Nat)
    (h : i < (stationPairs stations).length) :
    (stationPairs stations)[i] = (i, latAt stations i) := by
  have hi : i < stations.length := by simpa [stationPairs_length] using h
  simp [stationPairs, latAt, List.getElem_enum,
    List.getD_eq_getElem?_getD, List.getElem?_eq_getElem, hi]

theorem snd_of_mem_stationPairs (stations : List Station) (p : Nat × Int)
    (hp : p ∈ stationPairs stations) : p.2 = latAt stations p.1 := by
  rcases List.mem_iff_getElem.mp hp with ⟨i, h, hip⟩
  rw [stationPairs_getElem stations i h] at hip
  rw [← hip]

theorem stationPairs_map_fst (stations : List Station) :
    (stationPairs stations).map Prod.fst = List.range stations.length := by
  apply List.ext_getElem
  · simp [stationPairs]
  · intro i h1 h2
    simp [stationPairs, List.getElem_enum]

theorem rebuildStationOrder_perm (stations : List Station) :
    (rebuildStationOrder stations).Perm (List.range stations.length) := by
  unfold rebuildStationOrder
  have h := (List.mergeSort_perm (stationPairs stations) latDescending).map Prod.fst
  rwa [stationPairs_map_fst] at h

theorem rebuildStationOrder_sorted (stations : List Station) :
    ((rebuildStationOrder stations).map (latAt stations)).Pairwise (fun a b => b ≤ a) := by
  unfold rebuildStationOrder
  rw [List.map_map, List.pairwise_map]
  have hsorted := @List.sorted_mergeSort _ latDescending
    (fun a b c hab hbc => by
      simp only [latDescending, decide_eq_true_eq] at *
      exact le_trans hbc hab)
    (fun a b => by
      simp only [latDescending, Bool.or_eq_true, decide_eq_true_eq]
      exact le_total b.2 a.2)
    (stationPairs stations)
  refine hsorted.imp_of_mem ?_
  intro a b ha hb hab
  have hsub := (List.mergeSort_perm (stationPairs stations) latDescending).subset
  have ha2 := snd_of_mem_stationPairs stations a (hsub ha)
  have hb2 := snd_of_mem_stationPairs stations b (hsub hb)
  simp only [latDescending, decide_eq_true_eq] at hab
  simp only [Function.comp]
  rw [← ha2, ← hb2]
  exact hab

theorem ringIdxAt_eq (n : Nat) : ringIdxAt n = n % 7 + 1 := by
  induction n with
  | zero => rfl
  | succ n ih =>
    rw [ringIdxAt, ih]
    simp only [ringCycleNext, coverageSteps, List.length_cons, List.length_nil]
    split <;> omega

theorem loopHead_idx (running : Bool) (stations : List Station) (order : List Nat)
    (idx : Nat) (l : LoopState) (h : (loopHead running stations order idx).1 = some l) :
    l.idx = idx := by
  unfold loopHead at h
  by_cases hr : running
  · by_cases he : stations.isEmpty || order.isEmpty
    · simp [hr, he] at h
      simp [← h]
    · simp [hr, he] at h
      simp [← h]
  · simp [hr] at h

theorem loopStart_loop (running : Bool) (stations : List Station) (order : List Nat) :
    (loopStart running stations order).2.1 =
      (loopHead running stations (loopStart running stations order).1 0).1 := rfl

theorem stopSimulation_loops (s : Sys) : (stopSimulation s).loops = s.loops := by
  unfold stopSimulation stopRingCycle
  cases s.ringInterval <;> rfl

theorem startRingCycle_fields (s : Sys) :
    (startRingCycle s).loops = s.loops ∧ (startRingCycle s).stations = s.stations ∧
    (startRingCycle s).stationOrder = s.stationOrder ∧
    (startRingCycle s).simRunning = s.simRunning := by
  unfold startRingCycle
  cases s.ringInterval <;> exact ⟨rfl, rfl, rfl, rfl⟩

theorem startSimulation_loops (s : Sys) (l : LoopState)
    (hl : l ∈ (startSimulation s).loops) : l ∈ s.loops ∨ l.idx = 0 := by
  unfold startSimulation at hl
  by_cases hr : s.simRunning
  · simp [hr] at hl
    exact .inl hl
  · simp only [hr, Bool.false_eq_true, if_false] at hl
    rw [(startRingCycle_fields _).1] at hl
    rcases List.mem_append.mp hl with hmem | hmem
    · exact .inl hmem
    · right
      simp only [Option.mem_toList, Option.mem_def] at hmem
      exact loopHead_idx _ _ _ _ _ (loopStart_loop _ _ _ ▸ hmem)

theorem clickSys_coverageState (s : Sys) :
    (clickSys s).coverageState = nextCoverageState s.coverageState := by
  unfold clickSys
  dsimp only
  split_ifs <;>
    simp [stopSimulation, stopRingCycle, startSimulation, startRingCycle, loopStart] <;>
    rcases s.ringInterval with _ | t <;> simp

/-- Claim C1, evaluated at the failing input. The claim states that at most
one SimulationRun (tour loop) is alive at any instant, for every sequence of
button activations. The code violates it: after the ten-click trace
`bugTrace` (enter the tour state, cycle away while the first loop is still
awaiting its first fly animation, re-enter the tour state) TWO tour-loop
coroutines are alive; resuming the older one removes neither (the shared
`simRunning` flag is up again, so the old loop continues) and it issues a
further `flyTo` call. -/
theorem two_tour_loops_alive :
    bugTrace.loops.length = 2 ∧
    bugTrace.simRunning = true ∧
    (resumeSys 0 bugTrace).loops.length = 2 ∧
    (bugTrace.loops.get? 0).map
      (fun l => (resumeLoop bugTrace.simRunning bugTrace.stations bugTrace.stationOrder l).2.length)
      = some 1 := by
  decide

/-- Claim C2: between every pair of suspension points the tour loop re-checks
the running flag and, once it is lowered, exits immediately without starting
the next choreography step or issuing any `flyTo`; in particular a loop whose
flag is false before the first await never issues a `flyTo` call, for every
state of the station store and order. -/
theorem loop_cancellation_immediate :
    (∀ (stations : List Station) (order : List Nat) (l : LoopState),
      resumeLoop false stations order l = (none, [])) ∧
    (∀ (stations : List Station) (order : List Nat),
      (loopStart false stations order).2 =
        ((none : Option LoopState), ([] : List FlyCall))) := by
  constructor
  · intro stations order l
    rcases l with ⟨susp, idx, target⟩
    cases susp <;> simp [resumeLoop, loopHead]
  · intro stations order
    simp [loopStart, loopHead]

/-- Claim C3: the click handler takes the coverage state s to (s + 1) mod 9
(8 wraps to 0), and from any state below 9 exactly nine activations return to
the initial state. -/
theorem coverage_state_cycle (sys : Sys) (s : Nat) (h : s < 9) :
    (clickSys sys).coverageState = nextCoverageState sys.coverageState ∧
    nextCoverageState s = (s + 1) % 9 ∧ nextCoverageState^[9] s = s := by
  refine ⟨clickSys_coverageState sys, ?_, ?_⟩ <;> interval_cases s <;> decide

theorem coverage_state_cycle_witness :
    7 < 9 ∧
    ((clickSys loadedSys).coverageState = nextCoverageState loadedSys.coverageState ∧
      nextCoverageState 7 = (7 + 1) % 9 ∧ nextCoverageState^[9] 7 = 7) :=
  ⟨by decide, coverage_state_cycle loadedSys 7 (by decide)⟩

/-- Claim C4: for every non-empty station store, `rebuildStationOrder` is a
permutation of the station indices ordered by non-increasing latitude, and on
the three stations with latitudes -10, 20, 5 it yields [1, 2, 0]. -/
theorem rebuildStationOrder_spec (stations : List Station) (h : stations ≠ []) :
    (rebuildStationOrder stations).Perm (List.range stations.length) ∧
    ((rebuildStationOrder stations).map (latAt stations)).Pairwise (fun a b => b ≤ a) ∧
    rebuildStationOrder
      [{ lat := -10, lon := 0 }, { lat := 20, lon := 0 }, { lat := 5, lon := 0 }] = [1, 2, 0] :=
  ⟨rebuildStationOrder_perm stations, rebuildStationOrder_sorted stations, by
    simp [rebuildStationOrder, stationPairs, List.enum, List.enumFrom, List.mergeSort,
      latDescending, List.splitInTwo, List.merge]⟩

theorem rebuildStationOrder_spec_witness :
    ([{ lat := -10, lon := 0 }, { lat := 20, lon := 0 }, { lat := 5, lon := 0 }] : List Station) ≠ [] ∧
    ((rebuildStationOrder [{ lat := -10, lon := 0 }, { lat := 20, lon := 0 }, { lat := 5, lon := 0 }]).Perm
        (List.range ([{ lat := -10, lon := 0 }, { lat := 20, lon := 0 }, { lat := 5, lon := 0 }] : List Station).length) ∧
      ((rebuildStationOrder [{ lat := -10, lon := 0 }, { lat := 20, lon := 0 }, { lat := 5, lon := 0 }]).map
        (latAt [{ lat := -10, lon := 0 }, { lat := 20, lon := 0 }, { lat := 5, lon := 0 }])).Pairwise (fun a b => b ≤ a) ∧
      rebuildStationOrder
        [{ lat := -10, lon := 0 }, { lat := 20, lon := 0 }, { lat := 5, lon := 0 }] = [1, 2, 0]) :=
  ⟨by decide, rebuildStationOrder_spec _ (by decide)⟩

/-- Claim C5, counterexample. The claim states that on load completion the
state variable is reinitialized to 7 and that this load-time default is
distinct from the initial in-memory value. In the code the initial in-memory
value is already 7 (so nothing is distinct), and the load callback never
assigns the variable: completing the load while the variable holds 8 leaves
it at 8. -/
theorem load_default_not_distinct :
    initialCoverageState = 7 ∧
    (loadComplete [] { loadedSys with coverageState := 8 }).coverageState = 8 := by
  decide

/-- Claim C5, amended: on load completion the button visuals are set to the
state-7 default and the 40 km rings are drawn, but the `coverageState`
variable is not reassigned; it already holds 7 from its initializer, so the
load-time default coincides with the initial in-memory value. -/
theorem load_redraws_default_display (rows : List Row) (s : Sys) :
    (loadComplete rows s).coverageState = s.coverageState ∧
    (loadComplete rows s).btnState = 7 ∧
    (loadComplete rows s).ringLayer =
      drawSingleRing (s.stations ++ parseStations rows) 40 s.ringLayer ∧
    initialCoverageState = 7 :=
  ⟨rfl, rfl, rfl, rfl⟩

/-- Claim C6: the n-th tick of the ring cycle draws the radius at position
n mod 7 of the cyclic sequence [5, 10, 15, 20, 25, 30, 40] (wrapping from 40
back to 5), and the drawn radius is never 0, for every number of elapsed
ticks. -/
theorem ring_cycle_radius (n : Nat) :
    ringRadiusAt n = [5, 10, 15, 20, 25, 30, 40].getD (n % 7) 0 ∧ ringRadiusAt n ≠ 0 := by
  rw [ringRadiusAt, ringIdxAt_eq]
  generalize hm : n % 7 = m
  have h7 : m < 7 := hm ▸ Nat.mod_lt _ (by norm_num)
  interval_cases m <;> exact ⟨rfl, by decide⟩

/-- Claim C7: under the timer-accounting invariant, `startRingCycle` cancels
any previously live cycle timer before installing its own, so exactly one
ring-cycle timer is live afterwards; `stopRingCycle` clears the timer handle
and leaves the drawn rings on the ring layer unchanged. -/
theorem ring_cycle_timer_single (s : Sys) (h : timerInv s) :
    (startRingCycle s).activeTimers = [s.nextTimer] ∧
    (startRingCycle s).ringInterval = some s.nextTimer ∧
    (stopRingCycle s).ringInterval = none ∧
    (stopRingCycle s).activeTimers = [] ∧
    (stopRingCycle s).ringLayer = s.ringLayer := by
  unfold timerInv at h
  rcases hri : s.ringInterval with _ | t <;>
    simp_all [startRingCycle, stopRingCycle, hri]

theorem ring_cycle_timer_single_witness :
    timerInv loadedSys ∧
    ((startRingCycle loadedSys).activeTimers = [loadedSys.nextTimer] ∧
     (startRingCycle loadedSys).ringInterval = some loadedSys.nextTimer ∧
     (stopRingCycle loadedSys).ringInterval = none ∧
     (stopRingCycle loadedSys).activeTimers = [] ∧
     (stopRingCycle loadedSys).ringLayer = loadedSys.ringLayer) :=
  ⟨rfl, ring_cycle_timer_single loadedSys rfl⟩

/-- Claim C8: for every radius and every state of the station store,
`drawSingleRing` followed by `clearCoverage` leaves the ring layer empty. -/
theorem draw_then_clear_empty (stations : List Station) (km : Nat) (layer : List RingShape) :
    clearCoverage (drawSingleRing stations km layer) = [] := rfl

/-- Claim C9: with an empty station store, `drawSingleRing` draws no shapes on
the ring layer, for every radius; the embedding is a total function, which
reflects that the source raises no error on this path. -/
theorem drawSingleRing_empty_noop (km : Nat) (layer : List RingShape) :
    drawSingleRing [] km layer = [] := rfl

/-- Claim C10: any tour loop alive after a button activation is either one
that was already suspended before the activation or the freshly spawned one,
whose iteration counter is 0: a newly started simulation run always begins
the tour at order index 0 and never resumes the progress of a previous run. -/
theorem new_run_starts_at_zero (s : Sys) (l : LoopState)
    (hl : l ∈ (clickSys s).loops) : l ∈ s.loops ∨ l.idx = 0 := by
  unfold clickSys at hl
  dsimp only at hl
  split_ifs at hl
  · exact .inl (by rw [stopSimulation_loops] at hl; exact hl)
  · exact .inl (by rw [stopSimulation_loops] at hl; exact hl)
  · have := startSimulation_loops _ l hl
    rw [stopSimulation_loops] at this
    exact this
  · exact .inl (by rw [stopSimulation_loops] at hl; exact hl)

theorem new_run_starts_at_zero_witness :
    ({ susp := Susp.flyBaseIn, idx := 0, target := (0, 0) } : LoopState) ∈ (clickSys loadedSys).loops ∧
    (({ susp := Susp.flyBaseIn, idx := 0, target := (0, 0) } : LoopState) ∈ loadedSys.loops ∨
      ({ susp := Susp.flyBaseIn, idx := 0, target := (0, 0) } : LoopState).idx = 0) :=
  ⟨by decide, new_run_starts_at_zero loadedSys _ (by decide)⟩
